import Mathlib

/-!
A shallow embedding of the kubetui navigation/dispatch state machine
(`src/app.rs`, `src/ui.rs`).

The external `kubectl` process is modelled by an oracle value of type
`Spawn` supplied to each handler: `Spawn.fail e` is an io::Error from
`Command::output()` / `Command::status()` (propagated by `?`), and
`Spawn.ran success stdout stderr` is a completed process with its exit
status and captured streams.  Each input event performs at most one
backend call, so one `Spawn` value per event suffices.

Handlers additionally return the trace of backend operations they
invoked (a `List Call`), so that "the backend operation is invoked
exactly once / never" is expressible.  Rust `ListState` is modelled as
`Option Nat` (the selected index); Rust `String` as Lean `String`.
-/

namespace Kubetui

/-- Outcome of spawning the external kubectl process. -/
inductive Spawn where
  | fail (e : String)
  | ran (success : Bool) (stdout stderr : String)
deriving DecidableEq

/-- A backend invocation, identified by operation and arguments
(the kubectl argument-string assembly itself is out of scope). -/
inductive Call where
  | get_namespaces
  | get_contexts
  | get_pods (ns : String)
  | use_context (ctx : String)
  | preview_pods (ns : String)
  | exec_pod (ns pod : String)
  | copy_pod (ns pod newName : String)
deriving DecidableEq

/-- Model of `enum AppState` from app.rs. -/
inductive AppState where
  | MainMenu
  | NamespaceSelection
  | ContextSelection
  | ExecPodSelection
  | PodSelection
  | CopyPodNameInput
  | Message
  | ShowOutput
deriving DecidableEq

/-- The crossterm key codes the handlers distinguish; `other` covers
every key matched by the Rust wildcard arm. -/
inductive KeyCode where
  | up
  | down
  | right
  | enter
  | esc
  | backspace
  | char (c : Char)
  | other
deriving DecidableEq

/-- Model of `struct App` from app.rs; `ListState` fields are the selected index. -/
structure App where
  state : AppState
  commands : List String
  list_state : Option Nat
  namespaces : List String
  namespace_list_state : Option Nat
  contexts : List String
  context_list_state : Option Nat
  pods : List String
  pod_list_state : Option Nat
  selected_namespace : Option String
  selected_context : Option String
  selected_pod : Option String
  default_namespace : String
  input : String
  new_pod_name : String
  message : String
  output : String
  last_main_menu_index : Option Nat
deriving DecidableEq

/-- The single-quote character that the jsonpath output is trimmed of. -/
def squote : Char := Char.ofNat 39

/-- Rust `str::trim_matches(c)`: strip all leading and trailing `c`. -/
def trimMatchesChar (c : Char) (s : String) : String :=
  String.mk (((s.data.dropWhile (· == c)).reverse.dropWhile (· == c)).reverse)

/-- Split a character list at every character satisfying `p` (each
separator character produces a boundary; pieces may be empty). -/
def splitPredAux (p : Char → Bool) : List Char → List Char → List String
  | [], acc => [String.mk acc.reverse]
  | x :: xs, acc =>
    if p x then String.mk acc.reverse :: splitPredAux p xs []
    else splitPredAux p xs (x :: acc)

/-- Rust `str::split_whitespace()`: split on whitespace, dropping empties. -/
def splitWhitespace (s : String) : List String :=
  (splitPredAux Char.isWhitespace s.data []).filter (· ≠ "")

/-- Rust `str::trim()`: strip leading and trailing whitespace. -/
def rustTrim (s : String) : String :=
  String.mk
    (((s.data.dropWhile Char.isWhitespace).reverse.dropWhile
        Char.isWhitespace).reverse)

/-- Rust `str::lines()`: split on newline, final line ending optional,
a trailing carriage return stripped from each line. -/
def rustLines (s : String) : List String :=
  let parts := splitPredAux (· == '\n') s.data []
  let parts := if parts.getLast? = some "" then parts.dropLast else parts
  parts.map (fun l =>
    if l.data.getLast? = some '\r' then String.mk l.data.dropLast else l)

/-- Rust `String::pop()` on a string (result string only). -/
def rustPop (s : String) : String := String.mk s.data.dropLast

/-- Model of `App::get_current_context`: best effort, `None` on launch failure,
non-zero exit, or empty trimmed stdout. -/
def get_current_context (r : Spawn) : Option String :=
  match r with
  | .fail _ => none
  | .ran success out _ =>
    if success then
      let ctx := rustTrim out
      if ctx ≠ "" then some ctx else none
    else none

/-- Model of `App::new`, with the startup current-context query outcome `r`. -/
def App.new (r : Spawn) : App :=
  { state := .MainMenu
    commands := ["Choose Context", "Choose Namespace", "Pods", "Copy Pod"]
    list_state := some 0
    namespaces := []
    namespace_list_state := none
    contexts := []
    context_list_state := none
    pods := []
    pod_list_state := none
    selected_namespace := none
    selected_context := get_current_context r
    selected_pod := none
    default_namespace := "default"
    input := ""
    new_pod_name := ""
    message := ""
    output := ""
    last_main_menu_index := none }

/-- Model of `App::current_namespace`. -/
def App.current_namespace (app : App) : String :=
  app.selected_namespace.getD app.default_namespace

/-- Model of `App::load_namespaces`. -/
def App.load_namespaces (r : Spawn) (app : App) : App × Except String Unit :=
  match r with
  | .fail e => (app, .error e)
  | .ran success out err =>
    if success then
      let ns_output := trimMatchesChar squote out
      ({ app with
          namespaces := splitWhitespace ns_output
          namespace_list_state := some 0 }, .ok ())
    else
      (app, .error ("Failed to get namespaces: " ++ err))

/-- Model of `App::load_contexts`. -/
def App.load_contexts (r : Spawn) (app : App) : App × Except String Unit :=
  match r with
  | .fail e => (app, .error e)
  | .ran success out _ =>
    if success then
      ({ app with
          contexts := rustLines out
          context_list_state := some 0 }, .ok ())
    else
      (app, .error "Failed to load contexts")

/-- Model of `App::load_pods` (the namespace argument is `app.current_namespace`). -/
def App.load_pods (r : Spawn) (app : App) : App × Except String Unit :=
  match r with
  | .fail e => (app, .error e)
  | .ran success out err =>
    if success then
      let pod_output := trimMatchesChar squote out
      ({ app with
          pods := splitWhitespace pod_output
          pod_list_state := some 0 }, .ok ())
    else
      (app, .error ("Failed to get pods: " ++ err))

/-- Model of `App::switch_context` (via `Command::status()`). -/
def App.switch_context (r : Spawn) (context : String) (app : App) :
    App × Except String Unit :=
  match r with
  | .fail e => (app, .error e)
  | .ran success _ _ =>
    if success then
      ({ app with selected_context := some context }, .ok ())
    else
      (app, .error "Failed to switch context")

/-- Model of `App::execute_kubectl`: stdout on success, stderr on failure, into
`output`; a completed process is never an error. -/
def App.execute_kubectl (r : Spawn) (app : App) : App × Except String Unit :=
  match r with
  | .fail e => (app, .error e)
  | .ran success out err =>
    ({ app with output := if success then out else err }, .ok ())

/-- Model of `App::copy_pod`: like `execute_kubectl` but also enters `ShowOutput`. -/
def App.copy_pod (r : Spawn) (original_pod new_pod_name : String) (app : App) :
    App × Except String Unit :=
  match r with
  | .fail e => (app, .error e)
  | .ran success out err =>
    ({ app with
        output := if success then out else err
        state := .ShowOutput }, .ok ())

/-- Model of `App::exec_pod`: like `execute_kubectl` but also enters `ShowOutput`. -/
def App.exec_pod (r : Spawn) (pod : String) (app : App) :
    App × Except String Unit :=
  match r with
  | .fail e => (app, .error e)
  | .ran success out err =>
    ({ app with
        output := if success then out else err
        state := .ShowOutput }, .ok ())

/-- Model of `maybe_load_preview` from ui.rs. -/
def maybe_load_preview (r : Spawn) (app : App) (new_idx : Nat) :
    App × List Call :=
  if app.last_main_menu_index = some new_idx then
    (app, [])
  else
    let app1 := { app with output := "" }
    let (app2, calls) :=
      if new_idx = 2 then
        let ns := app1.current_namespace
        let (a, res) := app1.execute_kubectl r
        match res with
        | .error e =>
          ({ a with output := "Error listing pods: " ++ e }, [Call.preview_pods ns])
        | .ok _ => (a, [Call.preview_pods ns])
      else
        (app1, [])
    ({ app2 with last_main_menu_index := some new_idx }, calls)

/-- Model of `handle_load_namespaces` from ui.rs. -/
def handle_load_namespaces (r : Spawn) (app : App) : App × List Call :=
  let (app, res) := app.load_namespaces r
  match res with
  | .error e =>
    ({ app with
        message := "Error loading namespaces: " ++ e
        state := .Message }, [Call.get_namespaces])
  | .ok _ => ({ app with state := .NamespaceSelection }, [Call.get_namespaces])

/-- Model of `handle_load_contexts` from ui.rs. -/
def handle_load_contexts (r : Spawn) (app : App) : App × List Call :=
  let (app, res) := app.load_contexts r
  match res with
  | .error e =>
    ({ app with
        message := "Error loading contexts: " ++ e
        state := .Message }, [Call.get_contexts])
  | .ok _ => ({ app with state := .ContextSelection }, [Call.get_contexts])

/-- Model of `handle_main_menu` from ui.rs. -/
def handle_main_menu (r : Spawn) (app : App) (key_code : KeyCode) :
    App × List Call :=
  let old_index := app.list_state.getD 0
  let last_idx := app.commands.length - 1
  match key_code with
  | .up | .char 'k' =>
    let new_idx := old_index - 1
    let app := { app with list_state := some new_idx }
    maybe_load_preview r app new_idx
  | .down | .char 'j' =>
    let new_idx := if old_index < last_idx then old_index + 1 else 0
    let app := { app with list_state := some new_idx }
    maybe_load_preview r app new_idx
  | .right | .enter =>
    match old_index with
    | 0 => handle_load_contexts r app
    | 1 => handle_load_namespaces r app
    | 2 =>
      let ns := app.current_namespace
      let (app, res) := app.load_pods r
      match res with
      | .error e =>
        ({ app with
            message := "Error loading pods: " ++ e
            state := .Message }, [Call.get_pods ns])
      | .ok _ => ({ app with state := .ExecPodSelection }, [Call.get_pods ns])
    | 3 =>
      let ns := app.current_namespace
      let (app, res) := app.load_pods r
      match res with
      | .ok _ => ({ app with state := .PodSelection }, [Call.get_pods ns])
      | .error e =>
        ({ app with
            message := "Error loading pods: " ++ e
            state := .Message }, [Call.get_pods ns])
    | _ => (app, [])
  | _ => (app, [])

/-- Model of `handle_exec_pod_selection` from ui.rs. -/
def handle_exec_pod_selection (r : Spawn) (app : App) (key_code : KeyCode) :
    App × List Call :=
  let selected := app.pod_list_state.getD 0
  let last_idx := app.pods.length - 1
  match key_code with
  | .up | .char 'k' =>
    ({ app with pod_list_state := some (selected - 1) }, [])
  | .down | .char 'j' =>
    ({ app with
        pod_list_state :=
          some (if selected < last_idx then selected + 1 else 0) }, [])
  | .enter =>
    match app.pods.get? selected with
    | some chosen_pod =>
      let ns := app.current_namespace
      let (app, res) := app.exec_pod r chosen_pod
      match res with
      | .error e =>
        ({ app with
            message := "Error exec into pod: " ++ e
            state := .Message }, [Call.exec_pod ns chosen_pod])
      | .ok _ => (app, [Call.exec_pod ns chosen_pod])
    | none => (app, [])
  | .esc => ({ app with state := .MainMenu }, [])
  | _ => (app, [])

/-- Model of `handle_copy_pod_selection` from ui.rs. -/
def handle_copy_pod_selection (app : App) (key_code : KeyCode) :
    App × List Call :=
  let selected := app.pod_list_state.getD 0
  let last_idx := app.pods.length - 1
  match key_code with
  | .up | .char 'k' =>
    ({ app with pod_list_state := some (selected - 1) }, [])
  | .down | .char 'j' =>
    ({ app with
        pod_list_state :=
          some (if selected < last_idx then selected + 1 else 0) }, [])
  | .enter =>
    match app.pods.get? selected with
    | some cloned_pod =>
      ({ app with
          selected_pod := some cloned_pod
          new_pod_name := ""
          state := .CopyPodNameInput }, [])
    | none => (app, [])
  | .esc => ({ app with state := .MainMenu }, [])
  | _ => (app, [])

/-- Model of `handle_copy_pod_name` from ui.rs. -/
def handle_copy_pod_name (r : Spawn) (app : App) (key_code : KeyCode) :
    App × List Call :=
  match key_code with
  | .enter =>
    if app.new_pod_name = "" then
      ({ app with
          message := "Please enter a new pod name"
          state := .Message }, [])
    else
      match app.selected_pod with
      | some op =>
        let new_name := app.new_pod_name
        let ns := app.current_namespace
        let (app, result) := app.copy_pod r op new_name
        let app :=
          match result with
          | .error e =>
            { app with
                message := "Error copying pod: " ++ e
                state := .Message }
          | .ok _ => app
        ({ app with selected_pod := none, new_pod_name := "" },
          [Call.copy_pod ns op new_name])
      | none => (app, [])
  | .char c => ({ app with new_pod_name := app.new_pod_name.push c }, [])
  | .backspace => ({ app with new_pod_name := rustPop app.new_pod_name }, [])
  | .esc => ({ app with state := .PodSelection }, [])
  | _ => (app, [])

/-- Model of `handle_namespace_selection` from ui.rs. -/
def handle_namespace_selection (app : App) (key_code : KeyCode) :
    App × List Call :=
  let selected := app.namespace_list_state.getD 0
  let last_idx := app.namespaces.length - 1
  match key_code with
  | .up | .char 'k' =>
    ({ app with namespace_list_state := some (selected - 1) }, [])
  | .down | .char 'j' =>
    ({ app with
        namespace_list_state :=
          some (if selected < last_idx then selected + 1 else 0) }, [])
  | .enter =>
    match app.namespaces.get? selected with
    | some ns =>
      ({ app with selected_namespace := some ns, state := .MainMenu }, [])
    | none => (app, [])
  | .esc => ({ app with state := .MainMenu }, [])
  | _ => (app, [])

/-- Model of `handle_context_selection` from ui.rs. -/
def handle_context_selection (r : Spawn) (app : App) (key_code : KeyCode) :
    App × List Call :=
  let selected := app.context_list_state.getD 0
  let last_idx := app.contexts.length - 1
  match key_code with
  | .up | .char 'k' =>
    ({ app with context_list_state := some (selected - 1) }, [])
  | .down | .char 'j' =>
    ({ app with
        context_list_state :=
          some (if selected < last_idx then selected + 1 else 0) }, [])
  | .enter =>
    match app.contexts.get? selected with
    | some context_string =>
      let (app, res) := app.switch_context r context_string
      match res with
      | .error e =>
        ({ app with
            message := "Error switching context: " ++ e
            state := .Message }, [Call.use_context context_string])
      | .ok _ => ({ app with state := .MainMenu }, [Call.use_context context_string])
    | none => (app, [])
  | .esc => ({ app with state := .MainMenu }, [])
  | _ => (app, [])

/-- One iteration of the `run_app` event loop for one key event:
`none` means the session ends (global quit key), otherwise the updated
app and the backend calls made. -/
def step (r : Spawn) (app : App) (key : KeyCode) : Option (App × List Call) :=
  if key = .char 'q' then
    none
  else
    some (match app.state with
      | .MainMenu => handle_main_menu r app key
      | .NamespaceSelection => handle_namespace_selection app key
      | .ContextSelection => handle_context_selection r app key
      | .ExecPodSelection => handle_exec_pod_selection r app key
      | .PodSelection => handle_copy_pod_selection app key
      | .CopyPodNameInput => handle_copy_pod_name r app key
      | .Message => ({ app with state := .MainMenu }, [])
      | .ShowOutput => ({ app with state := .MainMenu }, []))

/-- Model of `run_app` over a finite list of (spawn outcome, key) events:
`none` when the session ended by quit, else the final app state. -/
def run (app : App) (events : List (Spawn × KeyCode)) : Option App :=
  match events with
  | [] => some app
  | (r, k) :: rest =>
    match step r app k with
    | none => none
    | some (app1, _) => run app1 rest

/-- Frame lemma: the preview path touches only `output` and
`last_main_menu_index`; every other field survives unchanged. -/
theorem maybe_load_preview_frame (r : Spawn) (app : App) (idx : Nat) :
    (maybe_load_preview r app idx).1.state = app.state ∧
    (maybe_load_preview r app idx).1.message = app.message ∧
    (maybe_load_preview r app idx).1.list_state = app.list_state ∧
    (maybe_load_preview r app idx).1.new_pod_name = app.new_pod_name ∧
    (maybe_load_preview r app idx).1.selected_namespace = app.selected_namespace ∧
    (maybe_load_preview r app idx).1.selected_context = app.selected_context ∧
    (maybe_load_preview r app idx).1.selected_pod = app.selected_pod := by
  by_cases h1 : app.last_main_menu_index = some idx
  · simp [maybe_load_preview, h1]
  · by_cases h2 : idx = 2
    · subst h2
      cases r <;> simp [maybe_load_preview, h1, App.execute_kubectl]
    · simp [maybe_load_preview, h1, h2]

/-- Debounce helper: when the index is already recorded, the preview
path is a complete no-op with no backend call. -/
theorem maybe_load_preview_noop (r : Spawn) (app : App) (idx : Nat)
    (h : app.last_main_menu_index = some idx) :
    maybe_load_preview r app idx = (app, []) := by
  simp [maybe_load_preview, h]

/-- C4: with `last_main_menu_index` not already 2, the first
`maybe_load_preview` at index 2 issues exactly the one preview backend
call and records index 2; the immediately following call at index 2
returns the state unchanged and makes no backend call. -/
theorem C4_preview_debounce (app : App) (r1 r2 : Spawn)
    (h : app.last_main_menu_index ≠ some 2) :
    (maybe_load_preview r1 app 2).2 =
      [Call.preview_pods app.current_namespace] ∧
    (maybe_load_preview r1 app 2).1.last_main_menu_index = some 2 ∧
    maybe_load_preview r2 (maybe_load_preview r1 app 2).1 2 =
      ((maybe_load_preview r1 app 2).1, []) := by
  have h2 : (maybe_load_preview r1 app 2).1.last_main_menu_index = some 2 := by
    cases r1 <;> simp [maybe_load_preview, h, App.execute_kubectl]
  refine ⟨?_, h2, maybe_load_preview_noop r2 _ 2 h2⟩
  cases r1 <;>
    simp [maybe_load_preview, h, App.execute_kubectl, App.current_namespace]

/-- C4 witness at a concrete state. -/
theorem C4_preview_debounce_witness :
    (App.new (.fail "e")).last_main_menu_index ≠ some 2 ∧
    ((maybe_load_preview (.ran true "p" "") (App.new (.fail "e")) 2).2 =
      [Call.preview_pods (App.new (.fail "e")).current_namespace] ∧
    (maybe_load_preview (.ran true "p" "")
        (App.new (.fail "e")) 2).1.last_main_menu_index = some 2 ∧
    maybe_load_preview (.fail "x")
        (maybe_load_preview (.ran true "p" "") (App.new (.fail "e")) 2).1 2 =
      ((maybe_load_preview (.ran true "p" "") (App.new (.fail "e")) 2).1, [])) :=
  ⟨by decide,
   C4_preview_debounce (App.new (.fail "e")) (.ran true "p" "") (.fail "x")
     (by decide)⟩

/-- C7: the preview path never escalates: `message` and the screen are
untouched for every spawn outcome, and on a fresh index 2 the result
text (stdout on success, stderr on non-zero exit, a formatted error on
launch failure) lands in `output`. -/
theorem C7_preview_never_escalates (r : Spawn) (app : App) (idx : Nat) :
    (maybe_load_preview r app idx).1.message = app.message ∧
    (maybe_load_preview r app idx).1.state = app.state ∧
    (app.last_main_menu_index ≠ some 2 →
      (maybe_load_preview r app 2).1.output =
        match r with
        | .fail e => "Error listing pods: " ++ e
        | .ran success out err => if success then out else err) := by
  refine ⟨(maybe_load_preview_frame r app idx).2.1,
          (maybe_load_preview_frame r app idx).1, ?_⟩
  intro h
  cases r <;> simp [maybe_load_preview, h, App.execute_kubectl]

/-- C7 witness at a concrete state: a non-zero exit lands stderr in
`output`. -/
theorem C7_preview_never_escalates_witness :
    (App.new (.fail "e")).last_main_menu_index ≠ some 2 ∧
    (maybe_load_preview (.ran false "" "boom")
        (App.new (.fail "e")) 2).1.output = "boom" :=
  ⟨by decide,
   (C7_preview_never_escalates (.ran false "" "boom")
      (App.new (.fail "e")) 2).2.2 (by decide)⟩

/-- C2 counterexample: a successful namespace load whose stdout parses
to an empty item list still sets the cursor to `some 0`, not `none`,
refuting "resets the cursor to None when the new sequence is empty". -/
theorem C2_counterexample :
    ((App.new (.fail "e")).load_namespaces (.ran true "" "")).1.namespaces = [] ∧
    ((App.new (.fail "e")).load_namespaces (.ran true "" "")).1.namespace_list_state = some 0 := by
  decide

/-- C2 (amended): on every successful load, the replace operation resets
the cursor to `some 0` regardless of the prior cursor value and
regardless of whether the new item sequence is empty. -/
theorem C2_replace_resets_cursor (app : App) (out err : String) :
    ((app.load_namespaces (.ran true out err)).1.namespace_list_state = some 0) ∧
    ((app.load_pods (.ran true out err)).1.pod_list_state = some 0) ∧
    ((app.load_contexts (.ran true out err)).1.context_list_state = some 0) := by
  refine ⟨?_, ?_, ?_⟩ <;>
    simp [App.load_namespaces, App.load_pods, App.load_contexts]

/-- C5: submitting CopyPodNameInput with an empty input buffer always
sets the fixed validation message, enters the Message screen, changes
nothing else, and makes no backend call at all. -/
theorem C5_empty_name_validation (r : Spawn) (app : App)
    (h : app.new_pod_name = "") :
    handle_copy_pod_name r app .enter =
      ({ app with
          message := "Please enter a new pod name"
          state := .Message }, []) := by
  simp [handle_copy_pod_name, h]

/-- C5 witness at a concrete state. -/
theorem C5_empty_name_validation_witness :
    (App.new (.fail "e")).new_pod_name = "" ∧
    handle_copy_pod_name (.ran true "" "") (App.new (.fail "e")) .enter =
      ({ App.new (.fail "e") with
          message := "Please enter a new pod name"
          state := .Message }, []) :=
  ⟨rfl, C5_empty_name_validation (.ran true "" "") (App.new (.fail "e")) rfl⟩

/-- C10: Enter in CopyPodNameInput with a non-empty buffer but no
selected pod is a complete no-op: the state is returned unchanged and no
backend call is made. -/
theorem C10_enter_without_pod_noop (r : Spawn) (app : App)
    (hne : app.new_pod_name ≠ "") (hp : app.selected_pod = none) :
    handle_copy_pod_name r app .enter = (app, []) := by
  simp [handle_copy_pod_name, hne, hp]

/-- C10 witness at a concrete state. -/
theorem C10_enter_without_pod_noop_witness :
    ({ App.new (.fail "e") with new_pod_name := "w2" }.new_pod_name ≠ "" ∧
     { App.new (.fail "e") with new_pod_name := "w2" }.selected_pod = none) ∧
    handle_copy_pod_name (.fail "x")
        { App.new (.fail "e") with new_pod_name := "w2" } .enter =
      ({ App.new (.fail "e") with new_pod_name := "w2" }, []) :=
  ⟨⟨by decide, rfl⟩,
   C10_enter_without_pod_noop (.fail "x")
     { App.new (.fail "e") with new_pod_name := "w2" } (by decide) rfl⟩

/-- C6: on every non-empty selection list (main-menu commands,
namespaces, contexts, and the pod list under both pod pickers), moving
up from cursor 0 saturates at 0, and moving down from the last index
wraps to 0. -/
theorem C6_cursor_saturation_and_wrap (r : Spawn) (app : App) :
    (app.commands ≠ [] → app.list_state = some 0 →
      (handle_main_menu r app .up).1.list_state = some 0) ∧
    (app.commands ≠ [] → app.list_state = some (app.commands.length - 1) →
      (handle_main_menu r app .down).1.list_state = some 0) ∧
    (app.namespaces ≠ [] → app.namespace_list_state = some 0 →
      (handle_namespace_selection app .up).1.namespace_list_state = some 0) ∧
    (app.namespaces ≠ [] →
      app.namespace_list_state = some (app.namespaces.length - 1) →
      (handle_namespace_selection app .down).1.namespace_list_state = some 0) ∧
    (app.contexts ≠ [] → app.context_list_state = some 0 →
      (handle_context_selection r app .up).1.context_list_state = some 0) ∧
    (app.contexts ≠ [] →
      app.context_list_state = some (app.contexts.length - 1) →
      (handle_context_selection r app .down).1.context_list_state = some 0) ∧
    (app.pods ≠ [] → app.pod_list_state = some 0 →
      (handle_exec_pod_selection r app .up).1.pod_list_state = some 0) ∧
    (app.pods ≠ [] → app.pod_list_state = some (app.pods.length - 1) →
      (handle_exec_pod_selection r app .down).1.pod_list_state = some 0) ∧
    (app.pods ≠ [] → app.pod_list_state = some 0 →
      (handle_copy_pod_selection app .up).1.pod_list_state = some 0) ∧
    (app.pods ≠ [] → app.pod_list_state = some (app.pods.length - 1) →
      (handle_copy_pod_selection app .down).1.pod_list_state = some 0) := by
  refine ⟨?_, ?_, ?_, ?_, ?_, ?_, ?_, ?_, ?_, ?_⟩
  · intro _ h0
    simp only [handle_main_menu]
    rw [(maybe_load_preview_frame r _ _).2.2.1]
    simp [h0]
  · intro _ hl
    simp only [handle_main_menu]
    rw [(maybe_load_preview_frame r _ _).2.2.1]
    simp [hl]
  · intro _ h0
    simp [handle_namespace_selection, h0]
  · intro _ hl
    simp [handle_namespace_selection, hl]
  · intro _ h0
    simp [handle_context_selection, h0]
  · intro _ hl
    simp [handle_context_selection, hl]
  · intro _ h0
    simp [handle_exec_pod_selection, h0]
  · intro _ hl
    simp [handle_exec_pod_selection, hl]
  · intro _ h0
    simp [handle_copy_pod_selection, h0]
  · intro _ hl
    simp [handle_copy_pod_selection, hl]

/-- C6 witness at a concrete state with singleton lists (index 0 is
also the last index). -/
theorem C6_cursor_saturation_and_wrap_witness :
    ({ App.new (.fail "e") with
        namespaces := ["n"], namespace_list_state := some 0,
        contexts := ["c"], context_list_state := some 0,
        pods := ["p"], pod_list_state := some 0 }.pods ≠ [] ∧
     { App.new (.fail "e") with
        namespaces := ["n"], namespace_list_state := some 0,
        contexts := ["c"], context_list_state := some 0,
        pods := ["p"], pod_list_state := some 0 }.pod_list_state =
       some ({ App.new (.fail "e") with
        namespaces := ["n"], namespace_list_state := some 0,
        contexts := ["c"], context_list_state := some 0,
        pods := ["p"], pod_list_state := some 0 }.pods.length - 1)) ∧
    (handle_exec_pod_selection (.fail "x")
        { App.new (.fail "e") with
            namespaces := ["n"], namespace_list_state := some 0,
            contexts := ["c"], context_list_state := some 0,
            pods := ["p"], pod_list_state := some 0 }
        .down).1.pod_list_state = some 0 ∧
    (handle_main_menu (.fail "x")
        { App.new (.fail "e") with
            namespaces := ["n"], namespace_list_state := some 0,
            contexts := ["c"], context_list_state := some 0,
            pods := ["p"], pod_list_state := some 0 }
        .up).1.list_state = some 0 := by
  obtain ⟨c1, _, _, _, _, _, _, c8, _, _⟩ :=
    C6_cursor_saturation_and_wrap (.fail "x")
      { App.new (.fail "e") with
          namespaces := ["n"], namespace_list_state := some 0,
          contexts := ["c"], context_list_state := some 0,
          pods := ["p"], pod_list_state := some 0 }
  exact ⟨⟨by decide, by decide⟩, c8 (by decide) (by decide),
         c1 (by decide) (by decide)⟩

/-- C8: Enter in the context picker invokes switch-context; on success
`selected_context` becomes the chosen context and the screen returns to
the main menu; on non-zero exit or launch failure the screen becomes the
message view with a formatted message and `selected_context` (like every
other selection) keeps its prior value. -/
theorem C8_context_switch (app : App) (sel : Nat) (c : String)
    (hsel : app.context_list_state = some sel)
    (hc : app.contexts[sel]? = some c) :
    (∀ out err, handle_context_selection (.ran true out err) app .enter =
      ({ app with selected_context := some c, state := .MainMenu },
       [Call.use_context c])) ∧
    (∀ out err, handle_context_selection (.ran false out err) app .enter =
      ({ app with
          message := "Error switching context: " ++ "Failed to switch context"
          state := .Message }, [Call.use_context c])) ∧
    (∀ e, handle_context_selection (.fail e) app .enter =
      ({ app with
          message := "Error switching context: " ++ e
          state := .Message }, [Call.use_context c])) := by
  refine ⟨fun out err => ?_, fun out err => ?_, fun e => ?_⟩ <;>
    simp [handle_context_selection, hsel, hc, App.switch_context]

/-- C8 witness at a concrete state (success outcome). -/
theorem C8_context_switch_witness :
    ({ App.new (.fail "e") with
        contexts := ["c1"], context_list_state := some 0 }.context_list_state =
       some 0 ∧
     { App.new (.fail "e") with
        contexts := ["c1"], context_list_state := some 0 }.contexts[0]? =
       some "c1") ∧
    handle_context_selection (.ran true "" "")
        { App.new (.fail "e") with
            contexts := ["c1"], context_list_state := some 0 } .enter =
      ({ { App.new (.fail "e") with
            contexts := ["c1"], context_list_state := some 0 } with
          selected_context := some "c1", state := .MainMenu },
       [Call.use_context "c1"]) :=
  ⟨⟨rfl, rfl⟩,
   (C8_context_switch
      { App.new (.fail "e") with
          contexts := ["c1"], context_list_state := some 0 }
      0 "c1" rfl rfl).1 "" ""⟩

/-- C3: Enter in CopyPodNameInput with a selected pod and non-empty
buffer invokes copy-pod with that pod and buffer; a launch failure sets
the formatted message and enters the message view, a completed process
(any exit status) enters the output view; in both cases `selected_pod`
and the buffer are cleared. -/
theorem C3_copy_submit (r : Spawn) (app : App) (p : String)
    (hp : app.selected_pod = some p) (hne : app.new_pod_name ≠ "") :
    (∀ e, r = .fail e →
      handle_copy_pod_name r app .enter =
        ({ app with
            message := "Error copying pod: " ++ e
            state := .Message
            selected_pod := none
            new_pod_name := "" },
         [Call.copy_pod app.current_namespace p app.new_pod_name])) ∧
    (∀ success out err, r = .ran success out err →
      handle_copy_pod_name r app .enter =
        ({ app with
            output := if success then out else err
            state := .ShowOutput
            selected_pod := none
            new_pod_name := "" },
         [Call.copy_pod app.current_namespace p app.new_pod_name])) := by
  constructor
  · rintro e rfl
    simp [handle_copy_pod_name, hne, hp, App.copy_pod]
  · rintro success out err rfl
    simp [handle_copy_pod_name, hne, hp, App.copy_pod]

/-- C3 witness at a concrete state (successful copy). -/
theorem C3_copy_submit_witness :
    ({ App.new (.fail "e") with
        selected_pod := some "p1", new_pod_name := "w2" }.selected_pod =
       some "p1" ∧
     { App.new (.fail "e") with
        selected_pod := some "p1", new_pod_name := "w2" }.new_pod_name ≠ "") ∧
    handle_copy_pod_name (.ran true "ok" "")
        { App.new (.fail "e") with
            selected_pod := some "p1", new_pod_name := "w2" } .enter =
      ({ { App.new (.fail "e") with
            selected_pod := some "p1", new_pod_name := "w2" } with
          output := "ok"
          state := .ShowOutput
          selected_pod := none
          new_pod_name := "" },
       [Call.copy_pod "default" "p1" "w2"]) :=
  ⟨⟨rfl, by decide⟩,
   (C3_copy_submit (.ran true "ok" "")
      { App.new (.fail "e") with
          selected_pod := some "p1", new_pod_name := "w2" }
      "p1" rfl (by decide)).2 true "ok" "" rfl⟩

/-- C1 counterexample: a non-zero exit from the interactive-exec backend
call does NOT produce the message view: the state becomes `ShowOutput`,
`message` stays empty (so it does not contain the error text "boom"),
and the stderr text lands in `output` instead. -/
theorem C1_counterexample :
    (handle_exec_pod_selection (.ran false "" "boom")
        { App.new (.fail "e") with pods := ["p1"], pod_list_state := some 0 }
        .enter).1.state = AppState.ShowOutput ∧
    (handle_exec_pod_selection (.ran false "" "boom")
        { App.new (.fail "e") with pods := ["p1"], pod_list_state := some 0 }
        .enter).1.state ≠ AppState.Message ∧
    (handle_exec_pod_selection (.ran false "" "boom")
        { App.new (.fail "e") with pods := ["p1"], pod_list_state := some 0 }
        .enter).1.message = "" ∧
    (handle_exec_pod_selection (.ran false "" "boom")
        { App.new (.fail "e") with pods := ["p1"], pod_list_state := some 0 }
        .enter).1.output = "boom" := by
  decide

/-- C1 (amended): a non-zero backend exit from `switch_context`,
`list_namespaces`, `list_pods`, or `list_contexts` yields the message
view with a message containing the error text, and the prior selections
(`selected_namespace`, `selected_context`, `selected_pod`) are
unchanged; for `exec_interactive` and `copy_pod` a non-zero exit is not
an error: stderr is captured into `output`, the screen becomes the
output view and `message` is untouched, `selected_namespace` and
`selected_context` are unchanged, and the copy submission additionally
clears `selected_pod` (as it does on every outcome). -/
theorem C1_backend_error_routing (app : App) (out err : String) :
    (∀ sel c, app.context_list_state = some sel → app.contexts[sel]? = some c →
      handle_context_selection (.ran false out err) app .enter =
        ({ app with
            message := "Error switching context: " ++ "Failed to switch context"
            state := .Message }, [Call.use_context c])) ∧
    (app.list_state = some 0 →
      handle_main_menu (.ran false out err) app .enter =
        ({ app with
            message := "Error loading contexts: " ++ "Failed to load contexts"
            state := .Message }, [Call.get_contexts])) ∧
    (app.list_state = some 1 →
      handle_main_menu (.ran false out err) app .enter =
        ({ app with
            message :=
              "Error loading namespaces: " ++ ("Failed to get namespaces: " ++ err)
            state := .Message }, [Call.get_namespaces])) ∧
    (app.list_state = some 2 →
      handle_main_menu (.ran false out err) app .enter =
        ({ app with
            message := "Error loading pods: " ++ ("Failed to get pods: " ++ err)
            state := .Message }, [Call.get_pods app.current_namespace])) ∧
    (app.list_state = some 3 →
      handle_main_menu (.ran false out err) app .enter =
        ({ app with
            message := "Error loading pods: " ++ ("Failed to get pods: " ++ err)
            state := .Message }, [Call.get_pods app.current_namespace])) ∧
    (∀ sel p, app.pod_list_state = some sel → app.pods[sel]? = some p →
      handle_exec_pod_selection (.ran false out err) app .enter =
        ({ app with output := err, state := .ShowOutput },
         [Call.exec_pod app.current_namespace p])) ∧
    (∀ p, app.new_pod_name ≠ "" → app.selected_pod = some p →
      handle_copy_pod_name (.ran false out err) app .enter =
        ({ app with
            output := err
            state := .ShowOutput
            selected_pod := none
            new_pod_name := "" },
         [Call.copy_pod app.current_namespace p app.new_pod_name])) := by
  refine ⟨fun sel c hsel hc => ?_, fun h0 => ?_, fun h1 => ?_, fun h2 => ?_,
          fun h3 => ?_, fun sel p hsel hp => ?_, fun p hne hp => ?_⟩
  · simp [handle_context_selection, hsel, hc, App.switch_context]
  · simp [handle_main_menu, h0, handle_load_contexts, App.load_contexts]
  · simp [handle_main_menu, h1, handle_load_namespaces, App.load_namespaces]
  · simp [handle_main_menu, h2, App.load_pods]
  · simp [handle_main_menu, h3, App.load_pods]
  · simp [handle_exec_pod_selection, hsel, hp, App.exec_pod]
  · simp [handle_copy_pod_name, hne, hp, App.copy_pod]

/-- C1 witness at a concrete state (failed namespace load from the main
menu). -/
theorem C1_backend_error_routing_witness :
    { App.new (.fail "e") with list_state := some 1 }.list_state = some 1 ∧
    handle_main_menu (.ran false "" "boom")
        { App.new (.fail "e") with list_state := some 1 } .enter =
      ({ { App.new (.fail "e") with list_state := some 1 } with
          message :=
            "Error loading namespaces: " ++ ("Failed to get namespaces: " ++ "boom")
          state := .Message }, [Call.get_namespaces]) :=
  ⟨rfl,
   (C1_backend_error_routing
      { App.new (.fail "e") with list_state := some 1 } "" "boom").2.2.1 rfl⟩

/-- The preview path never touches the pod-name input buffer. -/
theorem maybe_load_preview_buffer (r : Spawn) (app : App) (idx : Nat) :
    (maybe_load_preview r app idx).1.new_pod_name = app.new_pod_name :=
  (maybe_load_preview_frame r app idx).2.2.2.1

set_option maxHeartbeats 1000000 in
/-- The main-menu handler never touches the pod-name input buffer. -/
theorem handle_main_menu_buffer (r : Spawn) (app : App) (k : KeyCode) :
    (handle_main_menu r app k).1.new_pod_name = app.new_pod_name := by
  unfold handle_main_menu handle_load_contexts handle_load_namespaces
    App.load_contexts App.load_namespaces App.load_pods
  cases r <;> cases k <;>
    repeat' (first | simp_all [maybe_load_preview_buffer] | split)

/-- The namespace picker never touches the pod-name input buffer. -/
theorem handle_namespace_selection_buffer (app : App) (k : KeyCode) :
    (handle_namespace_selection app k).1.new_pod_name = app.new_pod_name := by
  unfold handle_namespace_selection
  cases k <;> repeat' (first | simp_all | split)

/-- The context picker never touches the pod-name input buffer. -/
theorem handle_context_selection_buffer (r : Spawn) (app : App) (k : KeyCode) :
    (handle_context_selection r app k).1.new_pod_name = app.new_pod_name := by
  unfold handle_context_selection App.switch_context
  cases r <;> cases k <;> repeat' (first | simp_all | split)

/-- The exec pod picker never touches the pod-name input buffer. -/
theorem handle_exec_pod_selection_buffer (r : Spawn) (app : App) (k : KeyCode) :
    (handle_exec_pod_selection r app k).1.new_pod_name = app.new_pod_name := by
  unfold handle_exec_pod_selection App.exec_pod
  cases r <;> cases k <;> repeat' (first | simp_all | split)

/-- The copy pod picker leaves the buffer alone or clears it. -/
theorem handle_copy_pod_selection_buffer (app : App) (k : KeyCode) :
    (handle_copy_pod_selection app k).1.new_pod_name = app.new_pod_name ∨
    (handle_copy_pod_selection app k).1.new_pod_name = "" := by
  unfold handle_copy_pod_selection
  cases k <;> repeat' (first | simp_all | split)

/-- If the buffer is q-free and the key is not the quit character, the
name-input handler keeps the buffer q-free. -/
theorem handle_copy_pod_name_buffer (r : Spawn) (app : App) (k : KeyCode)
    (hk : k ≠ .char 'q') (hq : 'q' ∉ app.new_pod_name.data) :
    'q' ∉ (handle_copy_pod_name r app k).1.new_pod_name.data := by
  unfold handle_copy_pod_name App.copy_pod
  cases k with
  | char c =>
    have hc : c ≠ 'q' := fun h => hk (by rw [h])
    simp [String.push, hq, Ne.symm hc]
  | enter =>
    cases r <;> repeat' (first | simp_all | split)
  | backspace =>
    simp only [rustPop]
    exact fun h => hq (List.mem_of_mem_dropLast h)
  | _ => exact hq

/-- One processed event preserves q-freeness of the input buffer (the
quit key never reaches a handler). -/
theorem step_buffer (r : Spawn) (app : App) (k : KeyCode) (a : App)
    (calls : List Call) (hq : 'q' ∉ app.new_pod_name.data)
    (hs : step r app k = some (a, calls)) :
    'q' ∉ a.new_pod_name.data := by
  by_cases hk : k = .char 'q'
  · subst hk; simp [step] at hs
  · unfold step at hs
    rw [if_neg hk] at hs
    have hinj := Option.some.inj hs
    cases happ : app.state <;> rw [happ] at hinj
    · have ha : a = (handle_main_menu r app k).1 := (congrArg Prod.fst hinj).symm
      rw [ha, handle_main_menu_buffer]
      exact hq
    · have ha : a = (handle_namespace_selection app k).1 :=
        (congrArg Prod.fst hinj).symm
      rw [ha, handle_namespace_selection_buffer]
      exact hq
    · have ha : a = (handle_context_selection r app k).1 :=
        (congrArg Prod.fst hinj).symm
      rw [ha, handle_context_selection_buffer]
      exact hq
    · have ha : a = (handle_exec_pod_selection r app k).1 :=
        (congrArg Prod.fst hinj).symm
      rw [ha, handle_exec_pod_selection_buffer]
      exact hq
    · have ha : a = (handle_copy_pod_selection app k).1 :=
        (congrArg Prod.fst hinj).symm
      rcases handle_copy_pod_selection_buffer app k with h | h
      · rw [ha, h]; exact hq
      · rw [ha, h]; decide
    · have ha : a = (handle_copy_pod_name r app k).1 :=
        (congrArg Prod.fst hinj).symm
      rw [ha]
      exact handle_copy_pod_name_buffer r app k hk hq
    · have ha : a = ({ app with state := .MainMenu }, ([] : List Call)).1 :=
        (congrArg Prod.fst hinj).symm
      rw [ha]
      exact hq
    · have ha : a = ({ app with state := .MainMenu }, ([] : List Call)).1 :=
        (congrArg Prod.fst hinj).symm
      rw [ha]
      exact hq

/-- The whole event loop preserves q-freeness of the input buffer. -/
theorem run_buffer (events : List (Spawn × KeyCode)) :
    ∀ app : App, 'q' ∉ app.new_pod_name.data →
      ∀ a : App, run app events = some a → 'q' ∉ a.new_pod_name.data := by
  induction events with
  | nil =>
    intro app h a ha
    unfold run at ha
    cases Option.some.inj ha
    exact h
  | cons ev rest ih =>
    intro app h a ha
    obtain ⟨r0, k0⟩ := ev
    unfold run at ha
    cases hst : step r0 app k0 with
    | none => rw [hst] at ha; simp at ha
    | some p =>
      obtain ⟨a1, cs⟩ := p
      rw [hst] at ha
      simp only [] at ha
      exact ih a1 (step_buffer r0 app k0 a1 cs h hst) a ha

/-- C9: the global quit key is intercepted before any screen handler, so
the session ends on the quit character; one processed event keeps the
pod-name buffer free of the quit character; and from the initial state
every reachable session state has a buffer without the quit character,
so a pod name containing it can never be submitted. -/
theorem C9_buffer_never_quit_char :
    (∀ (r : Spawn) (app : App), step r app (.char 'q') = none) ∧
    (∀ (r : Spawn) (app : App) (k : KeyCode) (a : App) (calls : List Call),
      'q' ∉ app.new_pod_name.data → step r app k = some (a, calls) →
      'q' ∉ a.new_pod_name.data) ∧
    (∀ (rctx : Spawn) (events : List (Spawn × KeyCode)) (a : App),
      run (App.new rctx) events = some a → 'q' ∉ a.new_pod_name.data) :=
  ⟨fun r app => by simp [step],
   fun r app k a calls hq hs => step_buffer r app k a calls hq hs,
   fun rctx events a ha =>
     run_buffer events (App.new rctx)
       (by show 'q' ∉ ("" : String).data; decide) a ha⟩

/-- C9 witness at a concrete run. -/
theorem C9_buffer_never_quit_char_witness :
    run (App.new (.fail "e")) [(.fail "x", .up)] =
      some (handle_main_menu (.fail "x") (App.new (.fail "e")) .up).1 ∧
    'q' ∉ (handle_main_menu (.fail "x")
        (App.new (.fail "e")) .up).1.new_pod_name.data :=
  ⟨rfl,
   C9_buffer_never_quit_char.2.2 (.fail "e") [(.fail "x", .up)]
     (handle_main_menu (.fail "x") (App.new (.fail "e")) .up).1 rfl⟩

end Kubetui
